import Mathlib

/-!
Verification of the smoke-verifier script
`jules-scratch/verification/verify_agent_builder.py`.

The script drives a headless browser through one linear sequence:
launch → new context → new page → goto URL → assert heading visible →
screenshot → close browser, all inside a `with sync_playwright()` block.
The browser-automation capability itself is external to the repository;
its operations are modelled from the contract the specification describes
(launch, navigate, locate-by-role, wait-for-visible, capture-image, close),
with the locator and teardown semantics the library documents.
-/

namespace SmokeVerifier

/-- The hardcoded target URL of the navigation step (script line 10). -/
def targetUrl : String :=
  "http://localhost:3000/app/agent-build/clwz1a3y000001e5695sbe24q"

/-- The fixed screenshot output path (script line 17). -/
def shotPath : String := "jules-scratch/verification/agent_builder_page.png"

/-- Boolean test: does the character list `pat` occur as a contiguous
subsequence of `s`?  Used for accessible-name substring matching. -/
def containsSeq (pat : List Char) : List Char → Bool
  | [] => pat.isEmpty
  | c :: rest => pat.isPrefixOf (c :: rest) || containsSeq pat rest

/-- A role locator descriptor, as built by `page.get_by_role(role, name=...)`
(script line 13).  `exactMatch` mirrors the library's `exact` keyword
argument, which the script does not pass, so it keeps the library default
`false`. -/
structure RoleLocator where
  accRole : String
  accName : String
  exactMatch : Bool := false
  deriving DecidableEq

/-- Lower-case every character of a character list. -/
def lowerChars (l : List Char) : List Char := l.map Char.toLower

/-- Modelled from the spec: the locator capability's accessible-name
matching, which the spec delegates to the library ("exact
substring/equality semantics are delegated to the locator capability").
The library contract is: by default the accessible name is matched
case-insensitively as a substring; with `exact` it is matched
case-sensitively as a whole string (after trimming whitespace). -/
def nameMatches (exactMatch : Bool) (pat accName : String) : Bool :=
  if exactMatch then accName.trim == pat.trim
  else containsSeq (lowerChars pat.toList) (lowerChars accName.toList)

/-- The locator built at script line 13:
`page.get_by_role("heading", name="AI Agent Build:")`. -/
def headingLocator : RoleLocator :=
  { accRole := "heading", accName := "AI Agent Build:" }

/-- Whether a page element of the locator's role with accessible name
`accName` satisfies the locator. -/
def locatorMatches (loc : RoleLocator) (accName : String) : Bool :=
  nameMatches loc.exactMatch loc.accName accName

/-- A heading element of the page under test: its accessible name, and
whether it becomes visible within the default wait window. -/
structure Heading where
  accName : String
  visibleWithinWindow : Bool
  deriving DecidableEq

/-- The external environment a run faces: whether the browser launches,
which URLs are reachable, the headings the page exposes, whether the
screenshot path is writable, and the image payload the capture would
produce. -/
structure Env where
  launchOk : Bool
  reachable : String → Bool
  headings : List Heading
  screenshotOk : Bool
  shotBody : List Nat

/-- The headings of the page that satisfy the script's locator. -/
def matchingHeadings (env : Env) : List Heading :=
  env.headings.filter (fun h => locatorMatches headingLocator h.accName)

/-- Errors surfaced by the automation capability, following the spec's
taxonomy (§7) plus the library's strict-mode violation. -/
inductive PwError where
  | launchError
  | navigationError
  | assertionTimeout
  | strictModeViolation
  | ioError
  deriving DecidableEq

/-- Modelled from the spec: the outcome of
`expect(heading).to_be_visible()` (script line 14).  Zero matches or a
sole match that never becomes visible fail with `AssertionTimeout` after
the default wait window; the library's locator assertions are strict, so
more than one match fails with a strict-mode violation. -/
def assertVisibleResult (env : Env) : Option PwError :=
  match matchingHeadings env with
  | [] => some PwError.assertionTimeout
  | [h] => if h.visibleWithinWindow then none else some PwError.assertionTimeout
  | _ :: _ :: _ => some PwError.strictModeViolation

/-- The eight-byte PNG file signature; every PNG the capture step writes
begins with it. -/
def pngSignature : List Nat := [137, 80, 78, 71, 13, 10, 26, 10]

/-- The bytes the screenshot step writes: a PNG signature followed by the
environment-determined payload. -/
def shotBytes (env : Env) : List Nat := pngSignature ++ env.shotBody

/-- A filesystem: a map from paths to file contents. -/
abbrev FS := String → Option (List Nat)

/-- Write (create or overwrite) the file at path `p` with contents `v`. -/
def updateFS (fs : FS) (p : String) (v : List Nat) : FS :=
  fun q => if q = p then some v else fs q

/-- The operations the script body performs, in source order
(script lines 4–19). -/
inductive Step where
  | launchBrowser
  | newContext
  | newPage
  | gotoUrl
  | assertHeadingVisible
  | takeScreenshot
  | closeBrowser
  deriving DecidableEq

/-- The script body `run` is this fixed sequence of operations, with no
branching and no loops (script lines 4–19). -/
def scriptSteps : List Step :=
  [Step.launchBrowser, Step.newContext, Step.newPage, Step.gotoUrl,
   Step.assertHeadingVisible, Step.takeScreenshot, Step.closeBrowser]

/-- Mutable state of a run: the filesystem and which acquired resources
are still open. -/
structure PwState where
  fs : FS
  browserLive : Bool
  contextOpen : Bool
  pageOpen : Bool

/-- Effect of one script operation on the state: either a successor state
or the error the operation raises. -/
def stepEffect (env : Env) (st : PwState) : Step → Except PwError PwState
  | Step.launchBrowser =>
      if env.launchOk then Except.ok { st with browserLive := true }
      else Except.error PwError.launchError
  | Step.newContext => Except.ok { st with contextOpen := true }
  | Step.newPage => Except.ok { st with pageOpen := true }
  | Step.gotoUrl =>
      if env.reachable targetUrl then Except.ok st
      else Except.error PwError.navigationError
  | Step.assertHeadingVisible =>
      match assertVisibleResult env with
      | none => Except.ok st
      | some e => Except.error e
  | Step.takeScreenshot =>
      if env.screenshotOk then
        Except.ok { st with fs := updateFS st.fs shotPath (shotBytes env) }
      else Except.error PwError.ioError
  | Step.closeBrowser =>
      Except.ok { st with browserLive := false, contextOpen := false, pageOpen := false }

/-- Execute a list of operations in order, stopping at the first error;
returns the final state, the trace of operations attempted, and the error
raised, if any.  An exception skips every remaining operation of the body
(Python exception propagation out of `run`). -/
def runSteps (env : Env) : PwState → List Step → PwState × List Step × Option PwError
  | st, [] => (st, [], none)
  | st, s :: rest =>
    match stepEffect env st s with
    | Except.ok st2 =>
        let r := runSteps env st2 rest
        (r.1, s :: r.2.1, r.2.2)
    | Except.error e => (st, [s], some e)

/-- Modelled from the spec: leaving the `with sync_playwright()` block
(script lines 21–22) stops the driver on every exit path, which closes
every browser process, context and page it launched — the spec's
"Teardown: close the page, context, and browser process unconditionally". -/
def playwrightExit (st : PwState) : PwState :=
  { st with browserLive := false, contextOpen := false, pageOpen := false }

/-- The observable outcome of one invocation of the script. -/
structure RunResult where
  fs : FS
  browserLive : Bool
  contextOpen : Bool
  pageOpen : Bool
  err : Option PwError
  exitCode : Nat
  trace : List Step

/-- The initial state of a run over filesystem `fs0`: nothing acquired. -/
def initState (fs0 : FS) : PwState :=
  { fs := fs0, browserLive := false, contextOpen := false, pageOpen := false }

/-- One invocation of the script against environment `env`, starting from
filesystem `fs0`: run the body's operations in order inside the
`with sync_playwright()` block, then leave the block.  An unhandled error
makes the interpreter exit nonzero; a clean run exits 0. -/
def runScript (env : Env) (fs0 : FS) : RunResult :=
  let r := runSteps env (initState fs0) scriptSteps
  let stf := playwrightExit r.1
  { fs := stf.fs, browserLive := stf.browserLive, contextOpen := stf.contextOpen,
    pageOpen := stf.pageOpen, err := r.2.2,
    exitCode := if r.2.2 = none then 0 else 1, trace := r.2.1 }

/-- The options of the screenshot capability.  `fullPage` mirrors the
library's `full_page` keyword, whose documented default `false` captures
the viewport only. -/
structure ScreenshotOptions where
  path : Option String := none
  fullPage : Bool := false
  deriving DecidableEq

/-- The capture call at script line 17:
`page.screenshot(path="jules-scratch/verification/agent_builder_page.png")`
— only the path is passed; every other option keeps its default. -/
def scriptScreenshotCall : ScreenshotOptions := { path := some shotPath }

/-- The empty filesystem, used as a concrete starting point. -/
def fsEmpty : FS := fun _ => none

/-- A fully healthy environment: browser launches, URL reachable, exactly
one heading satisfying the locator, visible, writable screenshot path. -/
def envSuccess : Env :=
  { launchOk := true, reachable := fun _ => true,
    headings := [{ accName := "AI Agent Build: Demo", visibleWithinWindow := true }],
    screenshotOk := true, shotBody := [0] }

/-- An environment whose target URL is unreachable. -/
def envUnreachable : Env :=
  { launchOk := true, reachable := fun _ => false,
    headings := [], screenshotOk := true, shotBody := [0] }

/-- An environment whose sole matching heading never becomes visible
within the wait window. -/
def envNeverVisible : Env :=
  { launchOk := true, reachable := fun _ => true,
    headings := [{ accName := "AI Agent Build: Demo", visibleWithinWindow := false }],
    screenshotOk := true, shotBody := [0] }

/-- An environment whose page exposes two headings satisfying the
script's locator. -/
def envTwoMatches : Env :=
  { launchOk := true, reachable := fun _ => true,
    headings := [{ accName := "AI Agent Build: A", visibleWithinWindow := true },
                 { accName := "AI Agent Build: B", visibleWithinWindow := true }],
    screenshotOk := true, shotBody := [0] }

/-- An environment whose sole heading's accessible name strictly contains
the locator's name string without being equal to it. -/
def envContainsName : Env :=
  { launchOk := true, reachable := fun _ => true,
    headings := [{ accName := "AI Agent Build: My Project", visibleWithinWindow := true }],
    screenshotOk := true, shotBody := [0] }

/-- The trace of operations a run attempts is always an initial segment of
the script's fixed operation sequence. -/
theorem runSteps_trace_isPrefix (env : Env) (l : List Step) :
    ∀ st : PwState, List.IsPrefix (runSteps env st l).2.1 l := by
  induction l with
  | nil => intro st; exact ⟨[], rfl⟩
  | cons s rest ih =>
    intro st
    cases hs : stepEffect env st s with
    | ok st2 =>
      obtain ⟨t, ht⟩ := ih st2
      exact ⟨t, by simp [runSteps, hs, ht]⟩
    | error e => exact ⟨rest, by simp [runSteps, hs]⟩

/-- A run either leaves the filesystem untouched or performs exactly the
one write of the screenshot bytes at the fixed path. -/
theorem runScript_fs_cases (env : Env) (fs0 : FS) :
    (runScript env fs0).fs = fs0 ∨
      (runScript env fs0).fs = updateFS fs0 shotPath (shotBytes env) := by
  cases h1 : env.launchOk <;> cases h2 : env.reachable targetUrl <;>
    cases h3 : assertVisibleResult env <;> cases h4 : env.screenshotOk <;>
      simp [runScript, runSteps, scriptSteps, stepEffect, initState, playwrightExit,
        h1, h2, h3, h4]

/-- The error outcome of a run does not depend on the starting
filesystem: the script never reads a file. -/
theorem runScript_err_indep (env : Env) (fs0 fs1 : FS) :
    (runScript env fs0).err = (runScript env fs1).err := by
  cases h1 : env.launchOk <;> cases h2 : env.reachable targetUrl <;>
    cases h3 : assertVisibleResult env <;> cases h4 : env.screenshotOk <;>
      simp [runScript, runSteps, scriptSteps, stepEffect, initState, h1, h2, h3, h4]

/-- A run that raises no error wrote the screenshot: its final filesystem
is the starting one with the screenshot bytes at the fixed path. -/
theorem runScript_err_none_fs (env : Env) (fs0 : FS)
    (h : (runScript env fs0).err = none) :
    (runScript env fs0).fs = updateFS fs0 shotPath (shotBytes env) := by
  cases h1 : env.launchOk <;> cases h2 : env.reachable targetUrl <;>
    cases h3 : assertVisibleResult env <;> cases h4 : env.screenshotOk <;>
      simp [runScript, runSteps, scriptSteps, stepEffect, initState, playwrightExit,
        h1, h2, h3, h4] at h ⊢

/-- Writing the same path twice keeps only the second write. -/
theorem updateFS_overwrite (fs : FS) (p : String) (v1 v2 : List Nat) :
    updateFS (updateFS fs p v1) p v2 = updateFS fs p v2 := by
  funext q
  by_cases hq : q = p <;> simp [updateFS, hq]

/-- The visibility assertion passes only when exactly one heading
satisfies the locator. -/
theorem assertVisible_none_single (env : Env) (h : assertVisibleResult env = none) :
    (matchingHeadings env).length = 1 := by
  rcases hm : matchingHeadings env with _ | ⟨a, _ | ⟨b, t⟩⟩
  · simp [assertVisibleResult, hm] at h
  · simp [hm]
  · simp [assertVisibleResult, hm] at h

/-- With more than one heading satisfying the locator, the visibility
assertion fails with a strict-mode violation. -/
theorem assertVisible_multi (env : Env) (h : 1 < (matchingHeadings env).length) :
    assertVisibleResult env = some PwError.strictModeViolation := by
  rcases hm : matchingHeadings env with _ | ⟨a, _ | ⟨b, t⟩⟩
  · rw [hm] at h; simp at h
  · rw [hm] at h; simp at h
  · simp [assertVisibleResult, hm]

/-- Claim C1: for every run against a reachable target whose page exposes a
heading satisfying the script's locator (exactly one, per the strict
assertion) that becomes visible within the wait window, with a launchable
browser and writable screenshot path, the run terminates with exit code 0
and produces a non-empty image file at the fixed path
`jules-scratch/verification/agent_builder_page.png`. -/
theorem claim_c1_success_run (env : Env) (fs0 : FS) (hd : Heading)
    (h1 : env.launchOk = true) (h2 : env.reachable targetUrl = true)
    (h3 : matchingHeadings env = [hd]) (h4 : hd.visibleWithinWindow = true)
    (h5 : env.screenshotOk = true) :
    (runScript env fs0).exitCode = 0 ∧
      (runScript env fs0).fs shotPath = some (shotBytes env) ∧
      shotBytes env ≠ [] := by
  have ha : assertVisibleResult env = none := by
    simp [assertVisibleResult, h3, h4]
  refine ⟨?_, ?_, ?_⟩
  · simp [runScript, runSteps, scriptSteps, stepEffect, initState, h1, h2, ha, h5]
  · simp [runScript, runSteps, scriptSteps, stepEffect, initState, playwrightExit,
      h1, h2, ha, h5, updateFS]
  · simp [shotBytes, pngSignature]

/-- Witness for C1 at a concrete healthy environment. -/
theorem claim_c1_witness :
    (runScript envSuccess fsEmpty).exitCode = 0 ∧
      (runScript envSuccess fsEmpty).fs shotPath = some (shotBytes envSuccess) ∧
      shotBytes envSuccess ≠ [] :=
  claim_c1_success_run envSuccess fsEmpty
    { accName := "AI Agent Build: Demo", visibleWithinWindow := true }
    rfl rfl (by decide) rfl rfl

/-- Claim C2: for every run — in particular for every failure at the
navigate, assert, or capture step — teardown still executes: after the
run the page, context, and browser process are all closed, so no browser
process remains, regardless of which step raised an error.  (In the
script the explicit `browser.close()` is skipped on failure, but leaving
the `with sync_playwright()` block stops the driver on every exit path,
closing everything it launched.) -/
theorem claim_c2_teardown_unconditional (env : Env) (fs0 : FS) :
    (runScript env fs0).pageOpen = false ∧
      (runScript env fs0).contextOpen = false ∧
      (runScript env fs0).browserLive = false :=
  ⟨rfl, rfl, rfl⟩

/-- Claim C3: for every run in which the target URL is unreachable, the
run fails with a navigation error and a nonzero exit code, and the
filesystem — in particular any prior file at the screenshot path — is
left byte-for-byte unchanged, because the capture step is never
reached. -/
theorem claim_c3_unreachable_no_write (env : Env) (fs0 : FS)
    (h1 : env.launchOk = true) (h2 : env.reachable targetUrl = false) :
    (runScript env fs0).err = some PwError.navigationError ∧
      (runScript env fs0).exitCode ≠ 0 ∧
      (runScript env fs0).fs = fs0 := by
  refine ⟨?_, ?_, ?_⟩ <;>
    simp [runScript, runSteps, scriptSteps, stepEffect, initState, playwrightExit, h1, h2]

/-- Witness for C3 at a concrete unreachable environment. -/
theorem claim_c3_witness :
    (runScript envUnreachable fsEmpty).err = some PwError.navigationError ∧
      (runScript envUnreachable fsEmpty).exitCode ≠ 0 ∧
      (runScript envUnreachable fsEmpty).fs = fsEmpty :=
  claim_c3_unreachable_no_write envUnreachable fsEmpty rfl rfl

/-- Claim C4: for every run in which no heading satisfying the locator
becomes visible within the default wait window (and the locator is not
ambiguous), the run fails with an `AssertionTimeout`-class error, the
screenshot is not taken, and teardown still releases all acquired
resources. -/
theorem claim_c4_timeout_releases (env : Env) (fs0 : FS)
    (h1 : env.launchOk = true) (h2 : env.reachable targetUrl = true)
    (h3 : ∀ hd ∈ matchingHeadings env, hd.visibleWithinWindow = false)
    (h4 : (matchingHeadings env).length ≤ 1) :
    (runScript env fs0).err = some PwError.assertionTimeout ∧
      (runScript env fs0).exitCode ≠ 0 ∧
      (runScript env fs0).fs = fs0 ∧
      (runScript env fs0).pageOpen = false ∧
      (runScript env fs0).contextOpen = false ∧
      (runScript env fs0).browserLive = false := by
  have ha : assertVisibleResult env = some PwError.assertionTimeout := by
    rcases hm : matchingHeadings env with _ | ⟨a, _ | ⟨b, t⟩⟩
    · simp [assertVisibleResult, hm]
    · have hv := h3 a (by rw [hm]; exact List.mem_cons_self a [])
      simp [assertVisibleResult, hm, hv]
    · rw [hm] at h4
      simp at h4
  refine ⟨?_, ?_, ?_, rfl, rfl, rfl⟩ <;>
    simp [runScript, runSteps, scriptSteps, stepEffect, initState, playwrightExit, h1, h2, ha]

/-- Witness for C4 at a concrete never-visible environment. -/
theorem claim_c4_witness :
    (runScript envNeverVisible fsEmpty).err = some PwError.assertionTimeout ∧
      (runScript envNeverVisible fsEmpty).exitCode ≠ 0 ∧
      (runScript envNeverVisible fsEmpty).fs = fsEmpty ∧
      (runScript envNeverVisible fsEmpty).pageOpen = false ∧
      (runScript envNeverVisible fsEmpty).contextOpen = false ∧
      (runScript envNeverVisible fsEmpty).browserLive = false :=
  claim_c4_timeout_releases envNeverVisible fsEmpty rfl rfl (by decide) (by decide)

/-- Counterexample to claim C5 as stated: the accessible name
"AI Agent Build: My Project" merely contains, and is not equal to,
"AI Agent Build:", yet it does satisfy the script's locator, because the
library's default accessible-name matching is case-insensitive substring
matching, not whole-string equality. -/
theorem claim_c5_counterexample :
    locatorMatches headingLocator "AI Agent Build: My Project" = true ∧
      "AI Agent Build: My Project" ≠ "AI Agent Build:" :=
  ⟨by decide, by decide⟩

/-- Claim C5 (amended): the element assertion resolves its target by
accessibility role "heading" and an accessible name matched with the
library's default semantics — a case-insensitive substring match, the
`exact` option not being passed — so every heading whose accessible name
contains the string "AI Agent Build:" (case-insensitively) satisfies the
locator, equality not being required. -/
theorem claim_c5_substring_matching (env : Env) (hd : Heading)
    (h1 : hd ∈ env.headings)
    (h2 : containsSeq (lowerChars "AI Agent Build:".toList)
            (lowerChars hd.accName.toList) = true) :
    hd ∈ matchingHeadings env := by
  have h2a : locatorMatches headingLocator hd.accName = true := h2
  simp [matchingHeadings, List.mem_filter, h1, h2a]

/-- Witness for the amended C5 at a concrete containing-but-not-equal
accessible name. -/
theorem claim_c5_witness :
    ({ accName := "AI Agent Build: My Project", visibleWithinWindow := true } : Heading)
      ∈ matchingHeadings envContainsName :=
  claim_c5_substring_matching envContainsName
    { accName := "AI Agent Build: My Project", visibleWithinWindow := true }
    (by decide) (by decide)

/-- Claim C6: for every run, control flow is strictly linear and each
operation executes at most once, in the fixed order launch browser →
open context → open page → navigate → assert visibility → capture
screenshot → release: the trace of attempted operations is an initial
segment of that duplicate-free sequence — no branching, no retries, no
loops. -/
theorem claim_c6_linear_once (env : Env) (fs0 : FS) :
    List.IsPrefix (runScript env fs0).trace scriptSteps ∧ scriptSteps.Nodup := by
  constructor
  · exact runSteps_trace_isPrefix env scriptSteps (initState fs0)
  · decide

/-- Claim C7: running the script twice in a row is idempotent with
respect to the filesystem: both runs write to the same fixed path, the
second write overwrites the first, and no additional files accumulate —
the post-state after two successful runs equals the post-state after
one, and every other path still holds its original contents. -/
theorem claim_c7_idempotent_overwrite (e1 e2 : Env) (fs0 : FS)
    (h1 : (runScript e1 fs0).err = none) (h2 : (runScript e2 fs0).err = none) :
    (runScript e2 (runScript e1 fs0).fs).fs = (runScript e2 fs0).fs ∧
      ∀ p, p ≠ shotPath → (runScript e2 (runScript e1 fs0).fs).fs p = fs0 p := by
  have hf1 := runScript_err_none_fs e1 fs0 h1
  have h2a : (runScript e2 (runScript e1 fs0).fs).err = none := by
    rw [runScript_err_indep e2 (runScript e1 fs0).fs fs0]
    exact h2
  have hf2 := runScript_err_none_fs e2 (runScript e1 fs0).fs h2a
  have hf2b := runScript_err_none_fs e2 fs0 h2
  constructor
  · rw [hf2, hf2b, hf1, updateFS_overwrite]
  · intro p hp
    rw [hf2, hf1]
    simp [updateFS, hp]

/-- Witness for C7: two concrete successful runs back to back. -/
theorem claim_c7_witness :
    (runScript envSuccess (runScript envSuccess fsEmpty).fs).fs =
        (runScript envSuccess fsEmpty).fs ∧
      (runScript envSuccess (runScript envSuccess fsEmpty).fs).fs "other" =
        fsEmpty "other" := by
  have h := claim_c7_idempotent_overwrite envSuccess envSuccess fsEmpty
    (by decide) (by decide)
  exact ⟨h.1, h.2 "other" (by decide)⟩

/-- Claim C8: for every run, the externally visible side effects are
limited to at most the one file write of the screenshot at the fixed
path — every other path is untouched — plus the spawning and
termination of the browser resources, all of which are closed by the end
of the run; no other persistent state is modified. -/
theorem claim_c8_frame (env : Env) (fs0 : FS) :
    (∀ p, p ≠ shotPath → (runScript env fs0).fs p = fs0 p) ∧
      ((runScript env fs0).fs shotPath = fs0 shotPath ∨
        (runScript env fs0).fs shotPath = some (shotBytes env)) ∧
      (runScript env fs0).pageOpen = false ∧
      (runScript env fs0).contextOpen = false ∧
      (runScript env fs0).browserLive = false := by
  rcases runScript_fs_cases env fs0 with h | h
  · exact ⟨fun p hp => by rw [h], Or.inl (by rw [h]), rfl, rfl, rfl⟩
  · refine ⟨fun p hp => ?_, Or.inr ?_, rfl, rfl, rfl⟩
    · rw [h]; simp [updateFS, hp]
    · rw [h]; simp [updateFS]

/-- Witness for C8: a concrete run leaves an unrelated path unchanged. -/
theorem claim_c8_witness :
    (runScript envSuccess fsEmpty).fs "some-other-file" = fsEmpty "some-other-file" :=
  (claim_c8_frame envSuccess fsEmpty).1 "some-other-file" (by decide)

/-- Claim C9: the captured screenshot is viewport-only, not full-page:
the screenshot call passes only the output path, and the full-page
option keeps its default `false`, so the written image depicts only the
current viewport of the page. -/
theorem claim_c9_viewport_only :
    scriptScreenshotCall.fullPage = false ∧ scriptScreenshotCall.path = some shotPath :=
  ⟨rfl, rfl⟩

/-- Claim C10: if the locator resolves to more than one matching heading
on the page, the visibility assertion fails with a strict-mode violation
and the screenshot step is never reached; conversely a run only proceeds
past the assert step to the capture step when exactly one heading
matches the role-and-name query. -/
theorem claim_c10_strict_single_match (env : Env) (fs0 : FS) :
    (Step.takeScreenshot ∈ (runScript env fs0).trace →
        (matchingHeadings env).length = 1) ∧
      (env.launchOk = true → env.reachable targetUrl = true →
        1 < (matchingHeadings env).length →
        (runScript env fs0).err = some PwError.strictModeViolation ∧
          Step.takeScreenshot ∉ (runScript env fs0).trace) := by
  constructor
  · intro hmem
    rcases ha : assertVisibleResult env with _ | e
    · exact assertVisible_none_single env ha
    · exfalso
      cases h1 : env.launchOk <;> cases h2 : env.reachable targetUrl <;>
        simp [runScript, runSteps, scriptSteps, stepEffect, initState, h1, h2, ha] at hmem
  · intro h1 h2 hlen
    have ha := assertVisible_multi env hlen
    constructor
    · simp [runScript, runSteps, scriptSteps, stepEffect, initState, h1, h2, ha]
    · simp [runScript, runSteps, scriptSteps, stepEffect, initState, h1, h2, ha]

/-- Witness for C10 at a concrete environment with two matching
headings. -/
theorem claim_c10_witness :
    (runScript envTwoMatches fsEmpty).err = some PwError.strictModeViolation ∧
      Step.takeScreenshot ∉ (runScript envTwoMatches fsEmpty).trace :=
  (claim_c10_strict_single_match envTwoMatches fsEmpty).2 rfl rfl (by decide)

end SmokeVerifier
